import Mathlib

/-!
Shallow embedding of the authentication controller of the Tours E-Booking System
(`src/controllers/authController.js`).

Modelling conventions:
* A user document is a `User` record; the database is a `List User`, with
  `List.find?` standing for the single-document queries `findOne` / `findById`.
* `AppError(message, statusCode)` is an `AppError` record.  Its `statusCode`
  field is an `Option Nat` because one call site in the source constructs an
  `AppError` without a status code.
* A handler either sends a `Response` (`HandlerResult.ok`), forwards an
  `AppError` to the global error handler via `next` (`HandlerResult.err`), or
  lets a runtime exception escape to `catchAsync` (`HandlerResult.thrown`).
* JavaScript string truthiness (`!x` is true for `undefined` and `""`) is
  `falsy : Option String → Bool`; `String.prototype.split(' ')` and
  `String.prototype.startsWith` are `jsSplit` / `jsStartsWith`, defined on the
  character list so that they evaluate inside the kernel.
* External collaborators keep their pass/fail interface: password comparison
  (`bcrypt.compare` inside `correctPassword`) is an arbitrary function
  `cp : String → Option String → Bool`; `jwt.verify` is an arbitrary function
  `verify : String → Except JwtError Decoded`; `jwt.sign` is `Env.sign`;
  the SHA-256 hex digest used for reset tokens is an arbitrary
  `hashFn : String → String`; the Notification Dispatcher outcome is a `Bool`.
* All timestamps live on one common `Nat` timeline.
-/

/-- JavaScript `String.prototype.split(sep)` on the character list: splits at
every occurrence of the separator, keeping empty pieces, and returns `[""]
` for the empty string. -/
def splitChars (sep : Char) : List Char → List (List Char)
  | [] => [[]]
  | c :: cs =>
    let rest := splitChars sep cs
    if c = sep then [] :: rest
    else
      match rest with
      | [] => [[c]]
      | g :: gs => (c :: g) :: gs

/-- JavaScript `s.split(sep)` for a one-character separator. -/
def jsSplit (s : String) (sep : Char) : List String :=
  (splitChars sep s.data).map String.mk

/-- JavaScript `s.startsWith(pre)`. -/
def jsStartsWith (s pre : String) : Bool :=
  pre.data.isPrefixOf s.data

/-- JavaScript truthiness test `!x` for a possibly-undefined string field:
`undefined` and the empty string are falsy. -/
def falsy : Option String → Bool
  | none => true
  | some s => s == ""

/-- JavaScript truthiness `x` (negation of `falsy`). -/
def truthy (o : Option String) : Bool :=
  !falsy o

/-- A user document, as read and written by the authentication controller.
`password` is the stored verifier (it is set to `none` when the controller
deletes it from a response), `passwordChangedAt` / `passwordResetToken` /
`passwordResetExpires` are the optional bookkeeping fields the controller
mutates. -/
structure User where
  id : String
  name : String
  email : String
  role : String
  password : Option String
  passwordConfirm : Option String
  passwordChangedAt : Option Nat
  passwordResetToken : Option String
  passwordResetExpires : Option Nat
deriving DecidableEq, Repr

/-- The operational `AppError(message, statusCode)` value handed to `next`.
`statusCode` is optional because the constructor can be called with the
message alone. -/
structure AppError where
  message : String
  statusCode : Option Nat
deriving DecidableEq, Repr

/-- A cookie as set by `res.cookie(name, value, options)`; a missing `secure`
option is the same as `secure: false`. -/
structure Cookie where
  name : String
  value : String
  expires : Nat
  httpOnly : Bool
  secure : Bool
deriving DecidableEq, Repr

/-- The JSON response a handler sends, together with the cookie it sets. -/
structure Response where
  statusCode : Nat
  status : String
  message : Option String
  token : Option String
  cookie : Option Cookie
  user : Option User
deriving DecidableEq, Repr

/-- Outcome of a request handler: a sent response, an `AppError` forwarded to
the central error handler via `next(err)`, or an uncaught runtime exception
propagated through `catchAsync`. -/
inductive HandlerResult where
  | ok : Response → HandlerResult
  | err : AppError → HandlerResult
  | thrown : String → HandlerResult
deriving DecidableEq, Repr

/-- Environment-sourced configuration plus the token signer: `NODE_ENV`,
`JWT_COOKIE_EXPIRES_IN` (days), and `signToken` (`jwt.sign` with the
configured secret and expiry baked in). -/
structure Env where
  node_env : String
  jwt_cookie_expires_in : Nat
  sign : String → String

/-- Error raised by `jwt.verify` (invalid signature / malformed, or expired). -/
inductive JwtError where
  | invalid : JwtError
  | expired : JwtError
deriving DecidableEq, Repr

/-- The decoded payload of a verified token: `{ id, iat }`. -/
structure Decoded where
  id : String
  iat : Nat
deriving DecidableEq, Repr

/-- The request fields the authentication middleware reads:
`req.headers.authorization` and `req.cookies.jwt`. -/
structure Request where
  authorization : Option String
  cookieJwt : Option String
deriving DecidableEq, Repr

/-- `createSendToken(user, statusCode, res)`: sign a token for the user's id,
set the `jwt` cookie (httpOnly, expiring in `JWT_COOKIE_EXPIRES_IN` days,
`secure` only when `NODE_ENV === 'production'`), remove the password from the
user document, and send `{status, token, data: {user}}`. -/
def createSendToken (env : Env) (now : Nat) (user : User) (statusCode : Nat) :
    Response :=
  let token := env.sign user.id
  { statusCode := statusCode
    status := "success"
    message := none
    token := some token
    cookie := some
      { name := "jwt"
        value := token
        expires := now + env.jwt_cookie_expires_in * 24 * 60 * 60 * 1000
        httpOnly := true
        secure := env.node_env == "production" }
    user := some { user with password := none } }

/-- `signup`: `User.create` with the restricted field set
`{name, email, password, passwordConfirm}` (the role is not taken from the
request body; the schema default `"user"` is modelled from the spec, the user
model file being outside `src/`), then `createSendToken(newUser, 201, res)`.
Persistence-layer validation is an external collaborator and is not modelled. -/
def signup (env : Env) (now : Nat) (newId : String)
    (name email password passwordConfirm : String) (db : List User) :
    List User × HandlerResult :=
  let newUser : User :=
    { id := newId
      name := name
      email := email
      role := "user"
      password := some password
      passwordConfirm := some passwordConfirm
      passwordChangedAt := none
      passwordResetToken := none
      passwordResetExpires := none }
  (db ++ [newUser], .ok (createSendToken env now newUser 201))

/-- `login`: 400 if email or password is missing; look up the user by email
(with the password verifier selected); if there is no such user or
`user.correctPassword(password, user.password)` fails, 401 with
`"Incorrect email or password"`; otherwise `createSendToken(user, 200, res)`.
`cp` is the password comparison collaborator. -/
def login (env : Env) (now : Nat) (db : List User)
    (cp : String → Option String → Bool)
    (emailOpt passwordOpt : Option String) : HandlerResult :=
  if falsy emailOpt || falsy passwordOpt then
    .err { message := "Please provide email and password!", statusCode := some 400 }
  else
    let email := emailOpt.getD ""
    let password := passwordOpt.getD ""
    match db.find? (fun u => u.email == email) with
    | none =>
      .err { message := "Incorrect email or password", statusCode := some 401 }
    | some user =>
      if cp password user.password then .ok (createSendToken env now user 200)
      else
        .err { message := "Incorrect email or password", statusCode := some 401 }

/-- `logout`: overwrite the `jwt` cookie with `'loggedout'`, expiring in 10
seconds, httpOnly, with no `secure` option, and send `{status: 'success'}`.
The environment parameter is deliberately unused: the source never consults
`NODE_ENV` here. -/
def logout (_env : Env) (now : Nat) : Response :=
  { statusCode := 200
    status := "success"
    message := none
    token := none
    cookie := some
      { name := "jwt"
        value := "loggedout"
        expires := now + 10 * 1000
        httpOnly := true
        secure := false }
    user := none }

/-- Token extraction shared by step 1 of `protect`: take
`authorization.split(' ')[1]` when the Authorization header is truthy and
starts with `"Bearer"`, otherwise fall back to a truthy `jwt` cookie,
otherwise leave the token undefined. -/
def extractToken (req : Request) : Option String :=
  if truthy req.authorization && jsStartsWith (req.authorization.getD "") "Bearer" then
    (jsSplit (req.authorization.getD "") ' ').get? 1
  else if truthy req.cookieJwt then
    req.cookieJwt
  else
    none

/-- Modelled from the spec: `changedPasswordAfter` is an instance method of the
user model, whose file is not under `src/`.  Spec section 4.5 step 4: the
password was changed after token issuance exactly when the password-changed
timestamp exists and is later than the token's issued-at timestamp (both on
the common timeline); a user who never changed the password yields `false`. -/
def changedPasswordAfter (u : User) (jwtIat : Nat) : Bool :=
  match u.passwordChangedAt with
  | some changedAt => jwtIat < changedAt
  | none => false

/-- Outcome of the hard gate `protect`: access granted with the resolved user
attached to `req.user`, an `AppError` forwarded via `next`, or an error thrown
by `jwt.verify` and propagated through `catchAsync`. -/
inductive ProtectResult where
  | grant : User → ProtectResult
  | reject : AppError → ProtectResult
  | thrown : JwtError → ProtectResult
deriving DecidableEq, Repr

/-- `protect`: extract the token (header first, cookie fallback); 401
`"You are not logged in!..."` if it is falsy; verify it (a verification error
escapes to the global handler); 401 `"...does no longer exist."` if no user has
the decoded id; 401 `"User recently changed password!..."` if the password was
changed after issuance; otherwise grant access with the user attached. -/
def protect (db : List User) (verify : String → Except JwtError Decoded)
    (req : Request) : ProtectResult :=
  let token := extractToken req
  if falsy token then
    .reject
      { message := "You are not logged in! Please log in to get access."
        statusCode := some 401 }
  else
    match verify (token.getD "") with
    | .error e => .thrown e
    | .ok decoded =>
      match db.find? (fun u => u.id == decoded.id) with
      | none =>
        .reject
          { message := "The user belonging to this token does no longer exist."
            statusCode := some 401 }
      | some currentUser =>
        if changedPasswordAfter currentUser decoded.iat then
          .reject
            { message := "User recently changed password! Please log in again."
              statusCode := some 401 }
        else
          .grant currentUser

/-- `isLoggedIn`: only when the `jwt` cookie is truthy, verify it, resolve the
user and check staleness inside a `try`; every failure (including a thrown
verification error, caught by the `catch`) just calls `next()`.  The result is
the pair (user attached to `res.locals`, error passed to `next`). -/
def isLoggedIn (db : List User) (verify : String → Except JwtError Decoded)
    (req : Request) : Option User × Option AppError :=
  if truthy req.cookieJwt then
    match verify (req.cookieJwt.getD "") with
    | .error _ => (none, none)
    | .ok decoded =>
      match db.find? (fun u => u.id == decoded.id) with
      | none => (none, none)
      | some currentUser =>
        if changedPasswordAfter currentUser decoded.iat then (none, none)
        else (some currentUser, none)
  else (none, none)

/-- `restrictTo(...roles)` applied to a request whose `req.user` is `reqUser`:
`next(AppError(..., 403))` when the user's role is not in the list, plain
`next()` (modelled as `none`) otherwise. -/
def restrictTo (roles : List String) (reqUser : User) : Option AppError :=
  if !roles.contains reqUser.role then
    some
      { message := "You do not have permission to perform this action"
        statusCode := some 403 }
  else
    none

/-- Modelled from the spec: `createPasswordResetToken` is an instance method of
the user model, whose file is not under `src/`.  Spec section 4.4: persist only
the one-way hash of the raw random value and an expiry of now + 10 minutes on
the identity record, returning the raw value for delivery.  The raw value and
the hash function are parameters here. -/
def createPasswordResetToken (hashFn : String → String) (now : Nat)
    (rawToken : String) (u : User) : User :=
  { u with
    passwordResetToken := some (hashFn rawToken)
    passwordResetExpires := some (now + 10 * 60 * 1000) }

/-- Replace every document whose id matches `uid` by `u'` (the effect of
`user.save()` on the collection). -/
def saveUser (db : List User) (uid : String) (u' : User) : List User :=
  db.map fun v => if v.id == uid then u' else v

/-- `forgotPassword`: 404 if no user has the posted email; generate and persist
the reset token; try to send the email (`sendSucceeds` is the Notification
Dispatcher outcome); on success respond 200 `"Token sent to email!"`; on
failure clear both reset fields, save, and call
`next(new AppError('There was an error sending the email. Try again later!'), 500)`
— note that in the source the `500` is an extra argument to `next`, not to the
`AppError` constructor, so the forwarded error has no status code. -/
def forgotPassword (hashFn : String → String) (now : Nat) (rawToken : String)
    (db : List User) (email : String) (sendSucceeds : Bool) :
    List User × HandlerResult :=
  match db.find? (fun u => u.email == email) with
  | none =>
    (db, .err { message := "There is no user with email address.", statusCode := some 404 })
  | some user =>
    let user₁ := createPasswordResetToken hashFn now rawToken user
    let db₁ := saveUser db user.id user₁
    if sendSucceeds then
      (db₁,
       .ok
         { statusCode := 200
           status := "success"
           message := some "Token sent to email!"
           token := none
           cookie := none
           user := none })
    else
      let user₂ :=
        { user₁ with passwordResetToken := none, passwordResetExpires := none }
      (saveUser db₁ user₁.id user₂,
       .err
         { message := "There was an error sending the email. Try again later!"
           statusCode := none })

/-- The `findOne` predicate of `resetPassword`: the stored reset-token hash
equals the given hash and `passwordResetExpires > Date.now()` (a missing
expiry never satisfies the comparison). -/
def resetMatches (hashedToken : String) (now : Nat) (u : User) : Bool :=
  u.passwordResetToken == some hashedToken &&
    match u.passwordResetExpires with
    | some e => now < e
    | none => false

/-- `resetPassword`: hash the raw token from the URL, look up a user whose
stored hash matches with an unexpired expiry; 400 `"Token is invalid or has
expired"` if none; otherwise set the new password, clear both reset fields,
save (the pre-save hook's password-changed timestamp update is modelled from
the spec, the user model file being outside `src/`), and
`createSendToken(user, 200, res)`. -/
def resetPassword (env : Env) (now : Nat) (hashFn : String → String)
    (db : List User) (rawToken newPassword newPasswordConfirm : String) :
    List User × HandlerResult :=
  let hashedToken := hashFn rawToken
  match db.find? (resetMatches hashedToken now) with
  | none =>
    (db, .err { message := "Token is invalid or has expired", statusCode := some 400 })
  | some user =>
    let user' :=
      { user with
        password := some newPassword
        passwordConfirm := some newPasswordConfirm
        passwordResetToken := none
        passwordResetExpires := none
        passwordChangedAt := some now }
    (saveUser db user.id user', .ok (createSendToken env now user' 200))

/-- `updatePassword`: fetch the authenticated user by `req.user.id` (if the id
resolves to no document the source would throw calling a method on `null`);
401 `"Your current password is wrong."` when the posted current password fails
the comparison; otherwise set the new password and save (the pre-save hook's
password-changed timestamp update is modelled from the spec, the user model
file being outside `src/`), then `createSendToken(user, 200, res)`. -/
def updatePassword (env : Env) (now : Nat) (cp : String → Option String → Bool)
    (db : List User) (reqUserId : String)
    (passwordCurrent newPassword newPasswordConfirm : String) :
    List User × HandlerResult :=
  match db.find? (fun u => u.id == reqUserId) with
  | none => (db, .thrown "TypeError: cannot read properties of null")
  | some user =>
    if !cp passwordCurrent user.password then
      (db, .err { message := "Your current password is wrong.", statusCode := some 401 })
    else
      let user' :=
        { user with
          password := some newPassword
          passwordConfirm := some newPasswordConfirm
          passwordChangedAt := some now }
      (saveUser db user.id user', .ok (createSendToken env now user' 200))

/-- Concrete sample user for witnesses: stored verifier for the plaintext
`"correct"` under `sampleCp`. -/
def sampleUser : User :=
  { id := "u1"
    name := "Ada"
    email := "ada@example.com"
    role := "user"
    password := some "hash:correct"
    passwordConfirm := none
    passwordChangedAt := none
    passwordResetToken := none
    passwordResetExpires := none }

/-- Concrete admin user for witnesses. -/
def adminUser : User :=
  { sampleUser with id := "u2", email := "root@example.com", role := "admin" }

/-- Concrete non-production environment for witnesses. -/
def sampleEnv : Env :=
  { node_env := "development", jwt_cookie_expires_in := 150, sign := fun i => "signed:" ++ i }

/-- Concrete production environment for witnesses. -/
def prodEnv : Env :=
  { sampleEnv with node_env := "production" }

/-- Concrete password-comparison collaborator for witnesses: the stored
verifier of `plain` is `"hash:" ++ plain`. -/
def sampleCp : String → Option String → Bool :=
  fun plain stored => stored == some ("hash:" ++ plain)

/-- Concrete token verifier for witnesses: accepts exactly `"tok-u1"`, decoded
as user `"u1"` issued at 100. -/
def sampleVerify : String → Except JwtError Decoded :=
  fun t => if t == "tok-u1" then .ok { id := "u1", iat := 100 } else .error .invalid

/-- Concrete one-way hash collaborator for witnesses. -/
def sampleHash : String → String :=
  fun s => "sha256:" ++ s

/-- Concrete user holding an unconsumed reset token for `"raw"` under
`sampleHash`, expiring at 5000. -/
def resetUser : User :=
  { sampleUser with passwordResetToken := some "sha256:raw", passwordResetExpires := some 5000 }

/-- C7: the middleware returned by `restrictTo` lets a request through exactly
when the attached identity's role is in the allowed list, and otherwise fails
with status 403 and the permission message. -/
theorem restrictTo_role_membership (roles : List String) (u : User) :
    (roles.contains u.role = true → restrictTo roles u = none) ∧
    (roles.contains u.role = false →
      restrictTo roles u =
        some { message := "You do not have permission to perform this action"
               statusCode := some 403 }) := by
  constructor <;> intro h
  · unfold restrictTo
    rw [h]
    rfl
  · unfold restrictTo
    rw [h]
    rfl

/-- Witness for C7: `restrictTo(['admin'])` admits the admin user and rejects
the plain user with 403. -/
theorem restrictTo_role_membership_witness :
    restrictTo ["admin"] adminUser = none ∧
    restrictTo ["admin"] sampleUser =
      some { message := "You do not have permission to perform this action"
             statusCode := some 403 } :=
  ⟨(restrictTo_role_membership ["admin"] adminUser).1 (by decide),
   (restrictTo_role_membership ["admin"] sampleUser).2 (by decide)⟩

/-- C9: every Authorization header that starts with `"Bearer"` but has no
second space-separated part (for example exactly `"Bearer"`, or
`"BearerXYZ"`) takes the header branch, so `split(' ')[1]` is undefined, the
cookie is never consulted (the result is the same for every cookie value),
and `protect` rejects with the 401 "not logged in" error. -/
theorem protect_bare_bearer_not_logged_in (hdr : String) (ck : Option String)
    (db : List User) (verify : String → Except JwtError Decoded)
    (hb : jsStartsWith hdr "Bearer" = true)
    (hs : (jsSplit hdr ' ').get? 1 = none) :
    extractToken { authorization := some hdr, cookieJwt := ck } = none ∧
    protect db verify { authorization := some hdr, cookieJwt := ck } =
      .reject { message := "You are not logged in! Please log in to get access."
                statusCode := some 401 } := by
  have hne : (hdr == "") = false := by
    cases hd : hdr == "" with
    | false => rfl
    | true =>
      have hemp : hdr = "" := eq_of_beq hd
      subst hemp
      exact absurd hb (by decide)
  have htr : truthy (some hdr) = true := by
    show (!(hdr == "")) = true
    rw [hne]
    rfl
  have hext : extractToken { authorization := some hdr, cookieJwt := ck } = none := by
    show (if truthy (some hdr) && jsStartsWith ((some hdr).getD "") "Bearer"
          then (jsSplit ((some hdr).getD "") ' ').get? 1
          else if truthy ck then ck else none) = none
    rw [if_pos (by simp only [Option.getD_some, htr, hb, Bool.and_self])]
    exact hs
  refine ⟨hext, ?_⟩
  simp only [protect, hext]
  rfl

/-- Witness for C9: the header `"BearerXYZ"` starts with `"Bearer"` and has no
second space-separated part, so even with a valid token in the cookie the
hard gate extracts nothing and rejects with the 401 "not logged in" error. -/
theorem protect_bare_bearer_not_logged_in_witness :
    extractToken { authorization := some "BearerXYZ", cookieJwt := some "tok-u1" } = none ∧
    protect [sampleUser] sampleVerify
      { authorization := some "BearerXYZ", cookieJwt := some "tok-u1" } =
      .reject { message := "You are not logged in! Please log in to get access."
                statusCode := some 401 } :=
  protect_bare_bearer_not_logged_in "BearerXYZ" (some "tok-u1") [sampleUser]
    sampleVerify (by decide) (by decide)

/-- C10: the logout cookie is always `jwt = "loggedout"`, expiring 10 seconds
out, httpOnly and never transport-secure — independent of the environment —
whereas `createSendToken` does set the secure flag in production. -/
theorem logout_cookie_never_secure (env : Env) (now : Nat) :
    (logout env now).cookie =
      some { name := "jwt", value := "loggedout", expires := now + 10 * 1000,
             httpOnly := true, secure := false } ∧
    (env.node_env = "production" →
      ∀ (u : User) (code : Nat), ∃ ck : Cookie,
        (createSendToken env now u code).cookie = some ck ∧ ck.secure = true) := by
  constructor
  · rfl
  · intro h u code
    refine ⟨_, rfl, ?_⟩
    simp [createSendToken, h]

/-- Witness for C10: in the production environment the logout cookie is still
not secure, while the `createSendToken` cookie is. -/
theorem logout_cookie_never_secure_witness :
    (logout prodEnv 0).cookie =
      some { name := "jwt", value := "loggedout", expires := 0 + 10 * 1000,
             httpOnly := true, secure := false } ∧
    ∃ ck : Cookie,
      (createSendToken prodEnv 0 sampleUser 200).cookie = some ck ∧ ck.secure = true :=
  ⟨(logout_cookie_never_secure prodEnv 0).1,
   (logout_cookie_never_secure prodEnv 0).2 rfl sampleUser 200⟩

/-- C1: with both fields present, a login for an unknown email and a login
with a failing password check produce the identical error — message
`"Incorrect email or password"`, status 401 — so the response does not reveal
which check failed. -/
theorem login_enumeration_resistant (env : Env) (now : Nat) (db : List User)
    (cp : String → Option String → Bool) (emailOpt passwordOpt : Option String)
    (he : falsy emailOpt = false) (hp : falsy passwordOpt = false)
    (hbad : db.find? (fun u => u.email == emailOpt.getD "") = none ∨
      ∃ u : User, db.find? (fun u => u.email == emailOpt.getD "") = some u ∧
        cp (passwordOpt.getD "") u.password = false) :
    login env now db cp emailOpt passwordOpt =
      .err { message := "Incorrect email or password", statusCode := some 401 } := by
  unfold login
  rw [he, hp]
  simp only [Bool.or_self, Bool.false_eq_true, if_false]
  rcases hbad with h | ⟨u, hu, hcp⟩
  · rw [h]
  · simp only [hu, hcp, Bool.false_eq_true, if_false]

/-- Witness for C1: a login for an email absent from the directory and a login
with the wrong password for a present email both yield the 401
`"Incorrect email or password"` error. -/
theorem login_enumeration_resistant_witness :
    login sampleEnv 0 [sampleUser] sampleCp (some "ghost@example.com") (some "pw") =
      .err { message := "Incorrect email or password", statusCode := some 401 } ∧
    login sampleEnv 0 [sampleUser] sampleCp (some "ada@example.com") (some "wrong") =
      .err { message := "Incorrect email or password", statusCode := some 401 } :=
  ⟨login_enumeration_resistant sampleEnv 0 [sampleUser] sampleCp
      (some "ghost@example.com") (some "pw") (by decide) (by decide)
      (Or.inl (by decide)),
   login_enumeration_resistant sampleEnv 0 [sampleUser] sampleCp
      (some "ada@example.com") (some "wrong") (by decide) (by decide)
      (Or.inr ⟨sampleUser, by decide, by decide⟩)⟩

/-- C8: `createSendToken` removes the password verifier from the serialized
user on every call, and consequently every success response of `signup`,
`login`, `resetPassword` and `updatePassword` carries a user with no password
field. -/
theorem createSendToken_strips_password :
    (∀ (env : Env) (now : Nat) (u : User) (code : Nat),
      (createSendToken env now u code).user = some { u with password := none }) ∧
    (∀ (env : Env) (now : Nat) (newId nm em pw pwc : String) (db : List User)
        (r : Response), (signup env now newId nm em pw pwc db).2 = .ok r →
      ∃ u' : User, r.user = some u' ∧ u'.password = none) ∧
    (∀ (env : Env) (now : Nat) (db : List User)
        (cp : String → Option String → Bool) (e p : Option String)
        (r : Response), login env now db cp e p = .ok r →
      ∃ u' : User, r.user = some u' ∧ u'.password = none) ∧
    (∀ (env : Env) (now : Nat) (hashFn : String → String) (db : List User)
        (raw np npc : String) (r : Response),
      (resetPassword env now hashFn db raw np npc).2 = .ok r →
      ∃ u' : User, r.user = some u' ∧ u'.password = none) ∧
    (∀ (env : Env) (now : Nat) (cp : String → Option String → Bool)
        (db : List User) (uid cur np npc : String) (r : Response),
      (updatePassword env now cp db uid cur np npc).2 = .ok r →
      ∃ u' : User, r.user = some u' ∧ u'.password = none) := by
  refine ⟨fun env now u code => rfl, ?_, ?_, ?_, ?_⟩
  · intro env now newId nm em pw pwc db r h
    unfold signup at h
    simp only [HandlerResult.ok.injEq] at h
    subst h
    exact ⟨_, rfl, rfl⟩
  · intro env now db cp e p r h
    simp only [login] at h
    split at h
    · simp at h
    · split at h
      · simp at h
      · split at h
        · simp only [HandlerResult.ok.injEq] at h
          subst h
          exact ⟨_, rfl, rfl⟩
        · simp at h
  · intro env now hashFn db raw np npc r h
    simp only [resetPassword] at h
    split at h
    · simp at h
    · simp only [HandlerResult.ok.injEq] at h
      subst h
      exact ⟨_, rfl, rfl⟩
  · intro env now cp db uid cur np npc r h
    unfold updatePassword at h
    split at h
    · simp at h
    · split at h
      · simp at h
      · simp only [HandlerResult.ok.injEq] at h
        subst h
        exact ⟨_, rfl, rfl⟩

/-- Witness for C8: the login success response for the sample user carries a
user with no password field. -/
theorem createSendToken_strips_password_witness :
    ∃ u' : User,
      (createSendToken sampleEnv 0 sampleUser 200).user = some u' ∧
      u'.password = none :=
  createSendToken_strips_password.2.2.1 sampleEnv 0 [sampleUser] sampleCp
    (some "ada@example.com") (some "correct")
    (createSendToken sampleEnv 0 sampleUser 200) (by decide)

/-- C5: the soft gate `isLoggedIn` never passes an error to `next` — for every
request it proceeds — and it attaches a user exactly when the `jwt` cookie is
truthy, verification succeeds, the decoded id resolves to an existing user,
and the password was not changed after issuance. -/
theorem isLoggedIn_never_errors (db : List User)
    (verify : String → Except JwtError Decoded) (req : Request) :
    (isLoggedIn db verify req).2 = none ∧
    ∀ u : User, (isLoggedIn db verify req).1 = some u ↔
      (truthy req.cookieJwt = true ∧
       ∃ d : Decoded, verify (req.cookieJwt.getD "") = .ok d ∧
         db.find? (fun v => v.id == d.id) = some u ∧
         changedPasswordAfter u d.iat = false) := by
  cases hc : truthy req.cookieJwt with
  | false =>
    have key : isLoggedIn db verify req = (none, none) := by
      simp [isLoggedIn, hc]
    rw [key]
    refine ⟨rfl, fun u => ⟨fun hu => by simp at hu, ?_⟩⟩
    rintro ⟨h1, -⟩
    simp at h1
  | true =>
    cases hv : verify (req.cookieJwt.getD "") with
    | error e =>
      have key : isLoggedIn db verify req = (none, none) := by
        simp [isLoggedIn, hc, hv]
      rw [key]
      refine ⟨rfl, fun u => ⟨fun hu => by simp at hu, ?_⟩⟩
      rintro ⟨-, d', hd', -⟩
      simp at hd'
    | ok d =>
      cases hf : db.find? (fun v => v.id == d.id) with
      | none =>
        have key : isLoggedIn db verify req = (none, none) := by
          simp [isLoggedIn, hc, hv, hf]
        rw [key]
        refine ⟨rfl, fun u => ⟨fun hu => by simp at hu, ?_⟩⟩
        rintro ⟨-, d', hd', hfu, -⟩
        rw [Except.ok.injEq] at hd'
        subst hd'
        rw [hf] at hfu
        simp at hfu
      | some cu =>
        cases hcp : changedPasswordAfter cu d.iat with
        | true =>
          have key : isLoggedIn db verify req = (none, none) := by
            simp [isLoggedIn, hc, hv, hf, hcp]
          rw [key]
          refine ⟨rfl, fun u => ⟨fun hu => by simp at hu, ?_⟩⟩
          rintro ⟨-, d', hd', hfu, hcpu⟩
          rw [Except.ok.injEq] at hd'
          subst hd'
          rw [hf] at hfu
          rw [Option.some.injEq] at hfu
          subst hfu
          rw [hcp] at hcpu
          simp at hcpu
        | false =>
          have key : isLoggedIn db verify req = (some cu, none) := by
            simp [isLoggedIn, hc, hv, hf, hcp]
          rw [key]
          refine ⟨rfl, fun u => ⟨fun hu => ?_, ?_⟩⟩
          · have hu' : some cu = some u := hu
            rw [Option.some.injEq] at hu'
            subst hu'
            exact ⟨rfl, d, rfl, hf, hcp⟩
          · rintro ⟨-, d', hd', hfu, -⟩
            rw [Except.ok.injEq] at hd'
            subst hd'
            rw [hf] at hfu
            rw [Option.some.injEq] at hfu
            subst hfu
            rfl

/-- Witness for C5: with the cookie carrying the valid sample token the soft
gate attaches the sample user and passes no error; with a junk cookie it
attaches nothing and still passes no error. -/
theorem isLoggedIn_never_errors_witness :
    (isLoggedIn [sampleUser] sampleVerify
      { authorization := none, cookieJwt := some "tok-u1" }).1 = some sampleUser ∧
    (isLoggedIn [sampleUser] sampleVerify
      { authorization := none, cookieJwt := some "garbage" }).2 = none :=
  ⟨((isLoggedIn_never_errors [sampleUser] sampleVerify
      { authorization := none, cookieJwt := some "tok-u1" }).2 sampleUser).mpr
      ⟨by decide, ⟨{ id := "u1", iat := 100 }, rfl, by decide, by decide⟩⟩,
   (isLoggedIn_never_errors [sampleUser] sampleVerify
      { authorization := none, cookieJwt := some "garbage" }).1⟩

/-- Counterexample to C3: a request carrying a valid `Bearer` token in the
Authorization header and no cookie is granted by the hard gate (which does
extract from the header) but is treated as anonymous by the soft gate, which
never reads the header — so the two gates do not share the claimed extraction
rule. -/
theorem gate_extraction_differs :
    protect [sampleUser] sampleVerify
      { authorization := some "Bearer tok-u1", cookieJwt := none } =
      .grant sampleUser ∧
    isLoggedIn [sampleUser] sampleVerify
      { authorization := some "Bearer tok-u1", cookieJwt := none } =
      (none, none) := by
  constructor <;> decide

/-- C3 as amended: the hard gate `protect` extracts by the header-first rule —
with a truthy `Bearer`-prefixed Authorization header the token is
`split(' ')[1]` regardless of the cookie, and with no header it falls back to
the truthy cookie — while the soft gate `isLoggedIn` ignores the Authorization
header entirely and consults only the `jwt` cookie. -/
theorem protect_header_first_isLoggedIn_cookie_only :
    (∀ (hdr : String) (ck : Option String),
      truthy (some hdr) = true → jsStartsWith hdr "Bearer" = true →
      extractToken { authorization := some hdr, cookieJwt := ck } =
        (jsSplit hdr ' ').get? 1) ∧
    (∀ ck : Option String,
      extractToken { authorization := none, cookieJwt := ck } =
        if truthy ck then ck else none) ∧
    (∀ (db : List User) (verify : String → Except JwtError Decoded)
        (hdr ck : Option String),
      isLoggedIn db verify { authorization := hdr, cookieJwt := ck } =
        isLoggedIn db verify { authorization := none, cookieJwt := ck }) := by
  refine ⟨?_, ?_, ?_⟩
  · intro hdr ck h1 h2
    show (if truthy (some hdr) && jsStartsWith ((some hdr).getD "") "Bearer"
          then (jsSplit ((some hdr).getD "") ' ').get? 1
          else if truthy ck then ck else none) = (jsSplit hdr ' ').get? 1
    rw [if_pos (by simp only [Option.getD_some, h1, h2, Bool.and_self])]
    rfl
  · intro ck
    show (if truthy none && jsStartsWith (Option.getD none "") "Bearer"
          then (jsSplit (Option.getD none "") ' ').get? 1
          else if truthy ck then ck else none) = if truthy ck then ck else none
    rw [if_neg (by decide)]
  · intro db verify hdr ck
    rfl

/-- Witness for the amended C3: with the header `"Bearer abc"` the hard-gate
extraction yields `"abc"` whatever the cookie holds, and the soft gate gives
the same outcome with and without that header. -/
theorem protect_header_first_isLoggedIn_cookie_only_witness :
    extractToken { authorization := some "Bearer abc", cookieJwt := some "ck" } =
      some "abc" ∧
    isLoggedIn [sampleUser] sampleVerify
      { authorization := some "Bearer abc", cookieJwt := some "tok-u1" } =
      isLoggedIn [sampleUser] sampleVerify
        { authorization := none, cookieJwt := some "tok-u1" } :=
  ⟨(protect_header_first_isLoggedIn_cookie_only.1 "Bearer abc" (some "ck")
      (by decide) (by decide)).trans (by decide),
   protect_header_first_isLoggedIn_cookie_only.2.2 [sampleUser] sampleVerify
     (some "Bearer abc") (some "tok-u1")⟩

/-- C2 at its failing input (code bug): for a known email with the
Notification Dispatcher throwing, `forgotPassword` does clear both reset
fields on the stored identity, but the `AppError` it forwards carries no
status code — in the source the `500` is a second argument to `next`, not to
the `AppError` constructor. -/
theorem forgotPassword_send_failure_eval :
    forgotPassword sampleHash 1000 "raw" [sampleUser] "ada@example.com" false =
      ([{ sampleUser with passwordResetToken := none, passwordResetExpires := none }],
       .err { message := "There was an error sending the email. Try again later!"
              statusCode := none }) := by
  decide

/-- Saving an updated document with the same id keeps it the result of the
by-id lookup: if the lookup for `uid` found `u` and `u'` keeps `u`'s id, then
after `saveUser db u.id u'` the lookup for `uid` finds `u'`. -/
theorem find?_saveUser (uid : String) (u u' : User) (hid : u'.id = u.id) :
    ∀ db : List User, db.find? (fun v => v.id == uid) = some u →
      (saveUser db u.id u').find? (fun v => v.id == uid) = some u' := by
  intro db
  induction db with
  | nil => intro hu; simp at hu
  | cons a l ih =>
    intro hu
    by_cases ha : (a.id == uid) = true
    · simp only [List.find?_cons] at hu
      rw [ha] at hu
      have hu2 : some a = some u := hu
      rw [Option.some.injEq] at hu2
      subst hu2
      simp only [saveUser, List.map_cons]
      rw [if_pos (by simp : (a.id == a.id) = true)]
      exact List.find?_cons_of_pos _ (show (u'.id == uid) = true by rw [hid]; exact ha)
    · have haf : (a.id == uid) = false := by
        cases hb : (a.id == uid) with
        | true => exact absurd hb ha
        | false => rfl
      simp only [List.find?_cons] at hu
      rw [haf] at hu
      have hu2 : List.find? (fun v => v.id == uid) l = some u := hu
      have huid : u.id = uid :=
        eq_of_beq (@List.find?_some _ (fun v => v.id == uid) u l hu2)
      have hau : (a.id == u.id) = false := by rw [huid]; exact haf
      simp only [saveUser, List.map_cons]
      rw [if_neg (by simp [hau])]
      exact (@List.find?_cons_of_neg _ (fun v => v.id == uid) a
        (saveUser l u.id u') ha).trans (ih hu2)

/-- The staleness step of the hard gate in isolation: an extracted, truthy
token that verifies to `d`, resolves to a user, and fails the
password-changed check makes `protect` reject with the 401 staleness error. -/
theorem protect_stale (db2 : List User)
    (verify : String → Except JwtError Decoded) (req : Request) (tok : String)
    (d : Decoded) (u2 : User)
    (hext : extractToken req = some tok) (htok : (tok == "") = false)
    (hver : verify tok = .ok d)
    (hfind : db2.find? (fun v => v.id == d.id) = some u2)
    (hstale : changedPasswordAfter u2 d.iat = true) :
    protect db2 verify req =
      .reject { message := "User recently changed password! Please log in again."
                statusCode := some 401 } := by
  have h2 : falsy (some tok) = false := htok
  simp only [protect, hext]
  simp [h2, hver, hfind, hstale]

/-- Shape of a successful `updatePassword`: the id resolved to a user, the
posted current password passed the comparison, and the stored collection is
the one with that user's password fields and password-changed timestamp
updated. -/
theorem updatePassword_success_shape (env : Env) (now : Nat)
    (cp : String → Option String → Bool) (db : List User)
    (uid cur np npc : String) (r : Response)
    (hup : (updatePassword env now cp db uid cur np npc).2 = .ok r) :
    ∃ user : User, db.find? (fun u => u.id == uid) = some user ∧
      cp cur user.password = true ∧
      (updatePassword env now cp db uid cur np npc).1 =
        saveUser db user.id
          { user with
            password := some np
            passwordConfirm := some npc
            passwordChangedAt := some now } := by
  cases hfind : db.find? (fun u => u.id == uid) with
  | none =>
    exfalso
    unfold updatePassword at hup
    rw [hfind] at hup
    simp at hup
  | some user =>
    have hup' := hup
    unfold updatePassword at hup'
    rw [hfind] at hup'
    by_cases hcp : cp cur user.password = true
    · have hnot : (!cp cur user.password) = false := by rw [hcp]; rfl
      refine ⟨user, rfl, hcp, ?_⟩
      unfold updatePassword
      rw [hfind]
      simp [hnot]
    · exfalso
      have hnot : (!cp cur user.password) = true := by
        cases hb : cp cur user.password with
        | true => exact absurd hb hcp
        | false => rfl
      simp [hnot] at hup'

/-- C4: after a successful `updatePassword` at time `now`, the hard gate
rejects with the 401 staleness error every request carrying a token for that
user whose issued-at timestamp precedes `now` — even though the token itself
still verifies (its own expiry has not passed, since `verify` succeeds). -/
theorem protect_rejects_stale_token (env : Env) (now : Nat)
    (cp : String → Option String → Bool) (db : List User)
    (uid cur np npc : String) (verify : String → Except JwtError Decoded)
    (req : Request) (tok : String) (d : Decoded) (r : Response)
    (hup : (updatePassword env now cp db uid cur np npc).2 = .ok r)
    (hext : extractToken req = some tok) (htok : (tok == "") = false)
    (hver : verify tok = .ok d) (hid : d.id = uid) (hiat : d.iat < now) :
    protect (updatePassword env now cp db uid cur np npc).1 verify req =
      .reject { message := "User recently changed password! Please log in again."
                statusCode := some 401 } := by
  obtain ⟨user, hfind, hcp, hdb⟩ :=
    updatePassword_success_shape env now cp db uid cur np npc r hup
  rw [hdb]
  exact protect_stale _ verify req tok d
    { user with
      password := some np
      passwordConfirm := some npc
      passwordChangedAt := some now }
    hext htok hver
    (by simp only [hid]
        exact find?_saveUser uid user
          { user with
            password := some np
            passwordConfirm := some npc
            passwordChangedAt := some now }
          rfl db hfind)
    (decide_eq_true hiat)

/-- Witness for C4: the sample user changes the password at time 1000; the
request carrying the token issued at time 100 is then rejected as stale. -/
theorem protect_rejects_stale_token_witness :
    protect (updatePassword sampleEnv 1000 sampleCp [sampleUser] "u1"
      "correct" "newpw" "newpw").1 sampleVerify
      { authorization := some "Bearer tok-u1", cookieJwt := none } =
      .reject { message := "User recently changed password! Please log in again."
                statusCode := some 401 } :=
  protect_rejects_stale_token sampleEnv 1000 sampleCp [sampleUser] "u1"
    "correct" "newpw" "newpw" sampleVerify
    { authorization := some "Bearer tok-u1", cookieJwt := none }
    "tok-u1" { id := "u1", iat := 100 }
    (createSendToken sampleEnv 1000
      { sampleUser with
        password := some "newpw"
        passwordConfirm := some "newpw"
        passwordChangedAt := some 1000 } 200)
    (by decide) (by decide) (by decide) rfl (by decide) (by decide)

/-- C6: `resetPassword` fails with the 400 invalid-or-expired error exactly
when no stored identity matches the hash of the supplied raw token with an
unexpired expiry; when the lookup finds `u₀` (and `u₀` is the only holder of
that stored hash), the handler sets the new password, clears both reset
fields, and responds through `createSendToken` — after which a second attempt
with the same raw value fails with the same 400 error. -/
theorem resetPassword_single_use (env env₂ : Env) (now now₂ : Nat)
    (hashFn : String → String) (db : List User)
    (raw np npc np₂ npc₂ : String) :
    ((resetPassword env now hashFn db raw np npc).2 =
        .err { message := "Token is invalid or has expired", statusCode := some 400 } ↔
      ∀ u ∈ db, resetMatches (hashFn raw) now u = false) ∧
    ∀ u₀ : User, db.find? (resetMatches (hashFn raw) now) = some u₀ →
      (∀ v ∈ db, v.passwordResetToken = some (hashFn raw) → v.id = u₀.id) →
      (resetPassword env now hashFn db raw np npc).2 =
        .ok (createSendToken env now
          { u₀ with
            password := some np
            passwordConfirm := some npc
            passwordResetToken := none
            passwordResetExpires := none
            passwordChangedAt := some now } 200) ∧
      (resetPassword env₂ now₂ hashFn
          (resetPassword env now hashFn db raw np npc).1 raw np₂ npc₂).2 =
        .err { message := "Token is invalid or has expired", statusCode := some 400 } := by
  constructor
  · constructor
    · intro herr
      cases hf : db.find? (resetMatches (hashFn raw) now) with
      | none =>
        intro u hu
        have hnone := List.find?_eq_none.mp hf u hu
        cases hb : resetMatches (hashFn raw) now u with
        | false => rfl
        | true => exact absurd hb hnone
      | some u₀ =>
        exfalso
        simp only [resetPassword] at herr
        rw [hf] at herr
        simp at herr
    · intro hall
      have hf : db.find? (resetMatches (hashFn raw) now) = none :=
        List.find?_eq_none.mpr (fun x hx => by simp [hall x hx])
      simp only [resetPassword]
      rw [hf]
  · intro u₀ hf huniq
    have key : resetPassword env now hashFn db raw np npc =
        (saveUser db u₀.id
          { u₀ with
            password := some np
            passwordConfirm := some npc
            passwordResetToken := none
            passwordResetExpires := none
            passwordChangedAt := some now },
         .ok (createSendToken env now
          { u₀ with
            password := some np
            passwordConfirm := some npc
            passwordResetToken := none
            passwordResetExpires := none
            passwordChangedAt := some now } 200)) := by
      simp only [resetPassword]
      rw [hf]
    have hdb1 : (resetPassword env now hashFn db raw np npc).1 =
        saveUser db u₀.id
          { u₀ with
            password := some np
            passwordConfirm := some npc
            passwordResetToken := none
            passwordResetExpires := none
            passwordChangedAt := some now } := by
      rw [key]
    have hnone : (saveUser db u₀.id
        { u₀ with
          password := some np
          passwordConfirm := some npc
          passwordResetToken := none
          passwordResetExpires := none
          passwordChangedAt := some now }).find?
          (resetMatches (hashFn raw) now₂) = none := by
      apply List.find?_eq_none.mpr
      intro x hx
      simp only [saveUser] at hx
      obtain ⟨v, hv, hfx⟩ := List.mem_map.mp hx
      by_cases hvid : (v.id == u₀.id) = true
      · have hxval : x = { u₀ with
            password := some np
            passwordConfirm := some npc
            passwordResetToken := none
            passwordResetExpires := none
            passwordChangedAt := some now } := by
          rw [← hfx]
          rw [if_pos hvid]
        rw [hxval]
        simp [resetMatches]
      · have hxv : x = v := by
          rw [← hfx]
          rw [if_neg hvid]
        rw [hxv]
        intro hm
        simp only [resetMatches, Bool.and_eq_true] at hm
        have heq : v.passwordResetToken = some (hashFn raw) := eq_of_beq hm.1
        have hvid' : v.id = u₀.id := huniq v hv heq
        exact hvid (by rw [hvid']; simp)
    refine ⟨?_, ?_⟩
    · rw [key]
    · rw [hdb1]
      simp only [resetPassword]
      rw [hnone]

/-- Witness for C6: the stored reset token for `"raw"` is consumed once
successfully at time 1000 and a second attempt with the same raw value at
time 2000 fails with the 400 error. -/
theorem resetPassword_single_use_witness :
    (resetPassword sampleEnv 1000 sampleHash [resetUser] "raw" "npw" "npw").2 =
      .ok (createSendToken sampleEnv 1000
        { resetUser with
          password := some "npw"
          passwordConfirm := some "npw"
          passwordResetToken := none
          passwordResetExpires := none
          passwordChangedAt := some 1000 } 200) ∧
    (resetPassword sampleEnv 2000 sampleHash
        (resetPassword sampleEnv 1000 sampleHash [resetUser] "raw" "npw" "npw").1
        "raw" "q" "q").2 =
      .err { message := "Token is invalid or has expired", statusCode := some 400 } :=
  (resetPassword_single_use sampleEnv sampleEnv 1000 2000 sampleHash [resetUser]
      "raw" "npw" "npw" "q" "q").2 resetUser (by decide) (by decide)
